import Mathlib

/-!
Verification of the writium routing core.

This file gives a shallow embedding of the writium library (a minimal
HTTP-API composition layer written in Rust) and proves properties of its
routing, path-normalization, error and JSON-wiring code.

Translation conventions:
* `&mut` receivers become explicit state passing: a Rust method mutating
  `self` and returning `T` becomes a Lean function returning `T × Self`
  (or a new `Self`).
* `Vec<String>` / `&[&str]` become `List String`; raw path strings are
  `List Char` so that splitting on `/` is structural.
* Body byte buffers (`Vec<u8>`) are modelled as UTF-8 `String`s; the byte
  length of a body is `String.utf8ByteSize`.
* `hyper::StatusCode` is modelled by its numeric HTTP code (`Nat`).
* `hyper::Headers` is modelled as an association list with `set`
  semantics (replace any existing header of the same name).
* The `serde_json` / `serde_qs` codecs are external collaborators; they
  are abstracted as a `Codec` record of fallible serialize/deserialize
  functions.
* `Box<Any>` values in the `extra` map are type-erased and never
  inspected by the code under verification; they are modelled by an
  opaque token type `ExtraVal`.
-/

namespace Writium

/-- Model of `hyper::StatusCode`: the numeric HTTP status code. -/
abbrev StatusCode := Nat

def StatusCode.Ok : StatusCode := 200
def StatusCode.BadRequest : StatusCode := 400
def StatusCode.Unauthorized : StatusCode := 401
def StatusCode.Forbidden : StatusCode := 403
def StatusCode.NotFound : StatusCode := 404
def StatusCode.MethodNotAllowed : StatusCode := 405
def StatusCode.InternalServerError : StatusCode := 500

/-- Model of `hyper::Method`. -/
inductive Method
  | Options | Get | Post | Put | Delete | Head | Trace | Connect | Patch
deriving DecidableEq

/-- Model of `hyper::Headers`: an association list of header name/value. -/
abbrev Headers := List (String × String)

/-- `Headers::set`: replace any header with the same name, append the new
one. -/
def hdrSet (hs : Headers) (n v : String) : Headers :=
  hs.filter (fun p => p.fst != n) ++ [(n, v)]

/-- Header lookup by name. -/
def hdrGet (hs : Headers) (n : String) : Option String :=
  (hs.find? (fun p => p.fst == n)).map Prod.snd

/-- Type-erased `Box<Any>` values stored in a request's `extra` map.
The routing code never inspects them, so they are opaque tokens. -/
structure ExtraVal where
  tag : Nat
deriving DecidableEq

/-- Model of writium's `Error` (src/error.rs): status, static
description, optional headers, optional boxed cause.  The cause chain is
modelled by the cause's display string. -/
structure Error where
  headers : Headers
  status : StatusCode
  description : String
  cause : Option String
deriving DecidableEq

/-- `Error::new` (src/error.rs). -/
def Error.new (status : StatusCode) (description : String) : Error :=
  { status := status, headers := [], description := description, cause := none }

def Error.internal (d : String) : Error := Error.new StatusCode.InternalServerError d

def Error.unauthorized (d : String) : Error := Error.new StatusCode.Unauthorized d

def Error.bad_request (d : String) : Error := Error.new StatusCode.BadRequest d

def Error.forbidden (d : String) : Error := Error.new StatusCode.Forbidden d

def Error.not_found (d : String) : Error := Error.new StatusCode.NotFound d

/-- `Error::method_not_allowed` (src/error.rs line 49): note the source
uses `StatusCode::NotFound`, not `MethodNotAllowed`. -/
def Error.method_not_allowed : Error :=
  Error.new StatusCode.NotFound "Method is not allowed."

/-- `Error::with_cause`. -/
def Error.with_cause (e : Error) (msg : String) : Error :=
  { e with cause := some msg }

/-- `Error::with_header`. -/
def Error.with_header (e : Error) (n v : String) : Error :=
  { e with headers := hdrSet e.headers n v }

/-- Model of writium's `Request` (src/proto/request.rs). -/
structure Request where
  method : Method
  query : String
  path_segs : List String
  headers : Headers
  body : String
  extra : List (String × ExtraVal)
deriving DecidableEq

/-- `Request::new`. -/
def Request.new (m : Method) : Request :=
  { method := m, query := "", path_segs := [], headers := [], body := "",
    extra := [] }

/-- `Request::match_segs` (src/proto/request.rs lines 236-250): returns
whether the leading path segments equal `segs` and the updated request.
The source first rejects when the request has fewer segments than
`segs`, then compares `path_segs.iter().zip(segs)` pairwise and on
success drains the first `segs.len()` segments. -/
def Request.match_segs (segs : List String) (req : Request) : Bool × Request :=
  if req.path_segs.length < segs.length then
    (false, req)
  else if (req.path_segs.zip segs).all (fun p => p.fst == p.snd) then
    (true, { req with path_segs := req.path_segs.drop segs.length })
  else
    (false, req)

/-- The traversal-normalization loop of `collect_path_segs`
(src/proto/request.rs lines 120-128): `..` pops the output stack, `.` is
dropped, anything else is pushed. -/
def normStep (rv : List String) (seg : String) : List String :=
  if seg = ".." then rv.dropLast
  else if seg = "." then rv
  else rv ++ [seg]

/-- Rust `str::split('/')` on a character list: always yields at least
one (possibly empty) piece, and a piece boundary at every `/`. -/
def splitSlash : List Char → List (List Char)
  | [] => [[]]
  | c :: rest =>
    if c = '/' then [] :: splitSlash rest
    else
      match splitSlash rest with
      | [] => [[c]]
      | s :: ss => (c :: s) :: ss

/-- `collect_path_segs` (src/proto/request.rs lines 107-130): when the
path is nonempty and begins with `/`, split the remainder on `/`;
otherwise there are no raw segments.  Then run the traversal-protection
fold.  (The `cfg!(windows)` backslash replacement is for the non-unix
target and is not modelled.) -/
def collect_path_segs (path : List Char) : List String :=
  let raw : List String :=
    if path.length ≠ 0 ∧ path.head? = some '/' then
      (splitSlash (path.drop 1)).map (fun cs => String.mk cs)
    else []
  raw.foldl normStep []

/-- Model of a URI: path characters and optional query string. -/
structure Uri where
  path : List Char
  query : Option String

/-- `Request::set_uri` (src/proto/request.rs lines 106-133). -/
def Request.set_uri (req : Request) (uri : Uri) : Request :=
  { req with path_segs := collect_path_segs uri.path,
             query := uri.query.getD "" }

/-- Model of writium's `Response` (src/proto/response.rs). -/
structure Response where
  status : StatusCode
  headers : Headers
  body : String
deriving DecidableEq

/-- `Response::new`. -/
def Response.new : Response :=
  { status := StatusCode.Ok, headers := [], body := "" }

/-- `ApiResult = Result<Response, Error>` (src/api.rs). -/
abbrev ApiResult := Except Error Response

/-- The `Api` trait (src/api.rs): a name and a `route` function; `route`
takes `&mut Request`, modelled as returning the result together with the
final request state. -/
structure Api where
  name : List String
  route : Request → ApiResult × Request

/-- The loop body of `Namespace::route` (src/namespace.rs lines 42-49):
try each child in order; on the first whose `match_segs` succeeds,
delegate to its `route`; if none matches, `gen_api_not_found()`. -/
def routeApis : List Api → Request → ApiResult × Request
  | [], req =>
    (Except.error (Error.not_found "Unable to find the requested API."), req)
  | api :: rest, req =>
    let r := Request.match_segs api.name req
    if r.fst then api.route r.snd else routeApis rest r.snd

/-- Model of `Namespace` (src/namespace.rs): a static name and an ordered
list of child handlers. -/
structure Namespace where
  name : List String
  apis : List Api

/-- `Namespace::new`. -/
def Namespace.new (name : List String) : Namespace :=
  { name := name, apis := [] }

/-- `Namespace::bind`: append a child handler (registration order is
preserved). -/
def Namespace.bind (ns : Namespace) (api : Api) : Namespace :=
  { ns with apis := ns.apis ++ [api] }

/-- `Namespace::route` (src/namespace.rs lines 42-49). -/
def Namespace.route (ns : Namespace) (req : Request) : ApiResult × Request :=
  routeApis ns.apis req

/-- `Namespace` itself implements `Api` (the composite pattern). -/
def Namespace.toApi (ns : Namespace) : Api :=
  { name := ns.name, route := ns.route }

/-- The `type_()` of a mime value stored as text: the part before the
first `/`. -/
def mimeType (s : String) : String :=
  String.mk (s.data.takeWhile (fun c => c ≠ '/'))

/-- The `subtype()` of a mime value stored as text: the part between the
first `/` and the first `;`. -/
def mimeSubtype (s : String) : String :=
  String.mk (((s.data.dropWhile (fun c => c ≠ '/')).drop 1).takeWhile (fun c => c ≠ ';'))

/-- Abstraction of an external serde codec (`serde_json` / `serde_qs`)
for values of type `α`: fallible serialization to a body string and
fallible deserialization from one, each reporting an error message. -/
structure Codec (α : Type) where
  ser : α → Except String String
  de : String → Except String α

/-- `serde_json::from_slice(&self.body).map_err(internal.with_cause)`:
the decode step shared by `Request::to_json` and `Response::to_json`. -/
def decodeJsonBody {α : Type} (c : Codec α) (body : String) : Except Error α :=
  match c.de body with
  | Except.ok v => Except.ok v
  | Except.error e =>
    Except.error ((Error.internal "Unable to deserialize body as JSON.").with_cause e)

/-- `serde_qs::from_bytes(&self.body).map_err(internal.with_cause)`:
the decode step shared by `Request::to_form` and `Response::to_form`. -/
def decodeFormBody {α : Type} (c : Codec α) (body : String) : Except Error α :=
  match c.de body with
  | Except.ok v => Except.ok v
  | Except.error e =>
    Except.error ((Error.internal "Unable to parse body as form data.").with_cause e)

/-- `Request::to_json` (src/proto/request.rs lines 80-90): when a
`Content-Type` header is present, its type/subtype must be
`application/json`, otherwise a bad-request error is returned; then the
body is decoded. -/
def Request.to_json {α : Type} (c : Codec α) (req : Request) : Except Error α :=
  match hdrGet req.headers "Content-Type" with
  | some ty =>
    if mimeType ty != "application" || mimeSubtype ty != "json" then
      Except.error (Error.bad_request "Content should be of type `application/json`.")
    else decodeJsonBody c req.body
  | none => decodeJsonBody c req.body

/-- `Request::to_form` (src/proto/request.rs lines 93-103). -/
def Request.to_form {α : Type} (c : Codec α) (req : Request) : Except Error α :=
  match hdrGet req.headers "Content-Type" with
  | some ty =>
    if mimeType ty != "application" || mimeSubtype ty != "x-www-form-urlencoded" then
      Except.error (Error.bad_request "Content should be of type `application/x-www-form-urlencoded`.")
    else decodeFormBody c req.body
  | none => decodeFormBody c req.body

/-- `Response::to_json` (src/proto/response.rs lines 49-59): identical
content-type check and decode as `Request::to_json`. -/
def Response.to_json {α : Type} (c : Codec α) (res : Response) : Except Error α :=
  match hdrGet res.headers "Content-Type" with
  | some ty =>
    if mimeType ty != "application" || mimeSubtype ty != "json" then
      Except.error (Error.bad_request "Content should be of type `application/json`.")
    else decodeJsonBody c res.body
  | none => decodeJsonBody c res.body

/-- `Response::set_json` (src/proto/response.rs lines 92-100): serialize
the value; on success store it as the body and force the `Content-Type`
header to `application/json; charset=UTF-8`; on failure return an
internal error. -/
def Response.set_json {α : Type} (c : Codec α) (v : α) (res : Response) :
    Except Error Response :=
  match c.ser v with
  | Except.ok body =>
    Except.ok { res with
      body := body,
      headers := hdrSet res.headers "Content-Type" "application/json; charset=UTF-8" }
  | Except.error e =>
    Except.error ((Error.internal "Unable to serialize data into JSON.").with_cause e)

/-- Model of `hyper::Response`: the transport-level response. -/
structure HyperResponse where
  status : StatusCode
  headers : Headers
  body : String
deriving DecidableEq

/-- `impl Into<HyperResponse> for Error` (src/error.rs lines 100-111):
body is the fixed-shape JSON object with the description; the error's
headers are installed wholesale, then `Content-Type` and
`Content-Length` are overwritten. -/
def Error.intoHyperResponse (e : Error) : HyperResponse :=
  let body := "\x7b\"msg\":\"" ++ e.description ++ "\"\x7d"
  { status := e.status,
    headers :=
      hdrSet (hdrSet e.headers "Content-Type" "application/json; charset=UTF-8")
        "Content-Length" (toString body.utf8ByteSize),
    body := body }

/-! ## Lemmas about `Request.match_segs` -/

/-- The pairwise zip comparison in `match_segs` succeeds exactly when the
leading segments of the request equal the queried name. -/
theorem zip_all_eq_take (l1 l2 : List String) (h : l2.length ≤ l1.length) :
    ((l1.zip l2).all (fun p => p.fst == p.snd) = true) ↔ l1.take l2.length = l2 := by
  induction l2 generalizing l1 with
  | nil => simp
  | cons b bs ih =>
    cases l1 with
    | nil => simp at h
    | cons a as =>
      simp only [List.zip_cons_cons, List.all_cons, Bool.and_eq_true, beq_iff_eq,
        List.length_cons, List.take_succ_cons, List.cons.injEq]
      rw [ih as (by simpa using h)]

/-- `match_segs` answers `true` exactly when the request has enough
segments and they agree with the name. -/
theorem match_segs_fst_iff (segs : List String) (req : Request) :
    (Request.match_segs segs req).fst = true ↔
      segs.length ≤ req.path_segs.length ∧ req.path_segs.take segs.length = segs := by
  unfold Request.match_segs
  split_ifs with h1 h2
  · constructor
    · intro h; simp at h
    · rintro ⟨hle, -⟩; omega
  · constructor
    · intro _
      exact ⟨Nat.le_of_not_lt h1, (zip_all_eq_take _ _ (Nat.le_of_not_lt h1)).mp h2⟩
    · intro _; rfl
  · constructor
    · intro h; simp at h
    · rintro ⟨hle, htake⟩
      exact absurd ((zip_all_eq_take _ _ (Nat.le_of_not_lt h1)).mpr htake) h2

/-- On success `match_segs` drops exactly `segs.length` leading segments
and touches nothing else. -/
theorem match_segs_snd_true (segs : List String) (req : Request)
    (h : (Request.match_segs segs req).fst = true) :
    (Request.match_segs segs req).snd =
      { req with path_segs := req.path_segs.drop segs.length } := by
  unfold Request.match_segs at h ⊢
  split_ifs at h ⊢
  all_goals simp_all

/-- On failure `match_segs` leaves the request unchanged. -/
theorem match_segs_snd_false (segs : List String) (req : Request)
    (h : (Request.match_segs segs req).fst = false) :
    (Request.match_segs segs req).snd = req := by
  unfold Request.match_segs at h ⊢
  split_ifs at h ⊢
  all_goals simp_all

/-- Fixture: a GET request whose remaining path is `["a", "b"]`. -/
def reqAB : Request := { Request.new Method.Get with path_segs := ["a", "b"] }

/-- C2: `match_segs` returns `true` iff the request has at least
`segs.length` remaining segments and the leading ones equal `segs`
pairwise; on success exactly `segs.length` leading segments are removed,
and on failure the request is left unchanged. -/
theorem match_segs_correct (segs : List String) (req : Request) :
    ((Request.match_segs segs req).fst = true ↔
        segs.length ≤ req.path_segs.length ∧ req.path_segs.take segs.length = segs) ∧
    ((Request.match_segs segs req).fst = true →
        (Request.match_segs segs req).snd =
          { req with path_segs := req.path_segs.drop segs.length }) ∧
    ((Request.match_segs segs req).fst = false →
        (Request.match_segs segs req).snd = req) :=
  ⟨match_segs_fst_iff segs req, match_segs_snd_true segs req,
    match_segs_snd_false segs req⟩

/-- Witness for C2 at concrete inputs: `["a"]` matches `["a", "b"]` and
drops one segment; `["x"]` fails and leaves the request unchanged. -/
theorem match_segs_correct_witness :
    (Request.match_segs ["a"] reqAB).fst = true ∧
    (Request.match_segs ["a"] reqAB).snd =
      { reqAB with path_segs := reqAB.path_segs.drop 1 } ∧
    (Request.match_segs ["x"] reqAB).snd = reqAB := by
  refine ⟨?_, ?_, ?_⟩
  · exact (match_segs_correct ["a"] reqAB).1.mpr (by decide)
  · exact (match_segs_correct ["a"] reqAB).2.1 (by decide)
  · exact (match_segs_correct ["x"] reqAB).2.2 (by decide)

/-! ## Lemmas about `Namespace::route` -/

/-- Children whose names fail to match are skipped, and each failed
attempt leaves the request unchanged for the next child. -/
theorem routeApis_skip (pre rest : List Api) (req : Request)
    (h : ∀ a ∈ pre, (Request.match_segs a.name req).fst = false) :
    routeApis (pre ++ rest) req = routeApis rest req := by
  induction pre with
  | nil => rfl
  | cons a as ih =>
    have ha := h a (List.mem_cons_self a as)
    have hsnd := match_segs_snd_false a.name req ha
    simp only [List.cons_append, routeApis]
    rw [ha, hsnd]
    simp only [Bool.false_eq_true, if_false]
    exact ih (fun x hx => h x (List.mem_cons_of_mem a hx))

/-- When no child matches, routing returns the fixed "not found" error
and the request untouched. -/
theorem routeApis_no_match (apis : List Api) (req : Request)
    (h : ∀ a ∈ apis, (Request.match_segs a.name req).fst = false) :
    routeApis apis req =
      (Except.error (Error.not_found "Unable to find the requested API."), req) := by
  have := routeApis_skip apis [] req h
  simpa using this

/-- Fixture: a response produced by the fixture handlers. -/
def respA : Response := Response.new

/-- Fixture: a handler named `["a"]` answering `respA`. -/
def apiA : Api := { name := ["a"], route := fun r => (Except.ok respA, r) }

/-- Fixture: a second handler also named `["a"]`, answering an error. -/
def apiB : Api := { name := ["a"], route := fun r => (Except.error (Error.forbidden "x"), r) }

/-- Fixture: a handler named `["x"]`. -/
def apiX : Api := { name := ["x"], route := fun r => (Except.ok respA, r) }

/-- Fixture: a handler with the empty name (a "fuse"). -/
def fuseApi : Api := { name := [], route := fun r => (Except.ok respA, r) }

/-- C1: with children registered in order `pre ++ [h1] ++ mid ++ [h2] ++
post`, if nothing in `pre` matches and both `h1` and `h2` would match,
`Namespace::route` delegates to `h1` on the stripped request and returns
its result; the result does not depend on `mid`, `h2` or `post`, so later
children are never consulted. -/
theorem route_first_match_wins (nsname : List String) (pre mid post : List Api)
    (h1 h2 : Api) (req : Request)
    (hpre : ∀ a ∈ pre, (Request.match_segs a.name req).fst = false)
    (hm1 : (Request.match_segs h1.name req).fst = true)
    (_hm2 : (Request.match_segs h2.name req).fst = true) :
    (Namespace.mk nsname (pre ++ h1 :: (mid ++ h2 :: post))).route req =
      h1.route (Request.match_segs h1.name req).snd := by
  unfold Namespace.route
  rw [routeApis_skip pre _ req hpre]
  simp only [routeApis]
  rw [hm1]
  simp

/-- Witness for C1: two handlers both named `["a"]` against a request
whose path is `["a", "b"]`; the first registered one answers. -/
theorem route_first_match_wins_witness :
    (Namespace.mk ["root"] ([] ++ apiA :: ([] ++ apiB :: []))).route reqAB =
      apiA.route (Request.match_segs apiA.name reqAB).snd :=
  route_first_match_wins ["root"] [] [] [] apiA apiB reqAB
    (by simp) (by decide) (by decide)

/-- C4: when no registered child matches (for any request, including one
with no segments left), `Namespace::route` returns the "not found" error
with description "Unable to find the requested API." and 404 status; the
Lean model is total, so no panic is possible. -/
theorem route_no_match_not_found (ns : Namespace) (req : Request)
    (h : ∀ a ∈ ns.apis, (Request.match_segs a.name req).fst = false) :
    ns.route req =
      (Except.error (Error.not_found "Unable to find the requested API."), req) ∧
    (Error.not_found "Unable to find the requested API.").status = StatusCode.NotFound :=
  ⟨routeApis_no_match ns.apis req h, rfl⟩

/-- Witness for C4: a namespace holding one handler named `["a"]` against
a request with an empty segment sequence. -/
theorem route_no_match_not_found_witness :
    (Namespace.mk ["w"] [apiA]).route (Request.new Method.Get) =
      (Except.error (Error.not_found "Unable to find the requested API."),
        Request.new Method.Get) ∧
    (Error.not_found "Unable to find the requested API.").status = StatusCode.NotFound :=
  route_no_match_not_found (Namespace.mk ["w"] [apiA]) (Request.new Method.Get)
    (by decide)

/-- C5: an empty-named child always matches while consuming zero
segments, so a two-child namespace whose first child is empty-named
always dispatches to that child on the unchanged request — the second
child is unreachable whatever its name. -/
theorem empty_name_fuse (nsname : List String) (h1 h2 : Api) (req : Request)
    (hempty : h1.name = []) :
    (Namespace.mk nsname [h1, h2]).route req = h1.route req := by
  unfold Namespace.route
  simp only [routeApis]
  rw [hempty]
  have hm : Request.match_segs [] req = (true, req) := by
    unfold Request.match_segs
    simp
  rw [hm]
  simp

/-- Witness for C5: the fuse handler placed before `apiB` captures the
request `reqAB` even though it carries segments. -/
theorem empty_name_fuse_witness :
    (Namespace.mk ["n2"] [fuseApi, apiB]).route reqAB = fuseApi.route reqAB :=
  empty_name_fuse ["n2"] fuseApi apiB reqAB rfl

/-- C9: when no child matches, the request coming back from
`Namespace::route` has all its fields — path segments, method, query,
headers, body and extra map — exactly as before the call. -/
theorem route_not_found_request_unmodified (ns : Namespace) (req : Request)
    (h : ∀ a ∈ ns.apis, (Request.match_segs a.name req).fst = false) :
    (ns.route req).snd.path_segs = req.path_segs ∧
    (ns.route req).snd.method = req.method ∧
    (ns.route req).snd.query = req.query ∧
    (ns.route req).snd.headers = req.headers ∧
    (ns.route req).snd.body = req.body ∧
    (ns.route req).snd.extra = req.extra := by
  have hr := routeApis_no_match ns.apis req h
  unfold Namespace.route
  rw [hr]
  exact ⟨rfl, rfl, rfl, rfl, rfl, rfl⟩

/-- Witness for C9: a namespace with one child named `["x"]` fails to
match `reqAB` and hands back every field unchanged. -/
theorem route_not_found_request_unmodified_witness :
    ((Namespace.mk ["n3"] [apiX]).route reqAB).snd.path_segs = reqAB.path_segs ∧
    ((Namespace.mk ["n3"] [apiX]).route reqAB).snd.method = reqAB.method ∧
    ((Namespace.mk ["n3"] [apiX]).route reqAB).snd.query = reqAB.query ∧
    ((Namespace.mk ["n3"] [apiX]).route reqAB).snd.headers = reqAB.headers ∧
    ((Namespace.mk ["n3"] [apiX]).route reqAB).snd.body = reqAB.body ∧
    ((Namespace.mk ["n3"] [apiX]).route reqAB).snd.extra = reqAB.extra :=
  route_not_found_request_unmodified (Namespace.mk ["n3"] [apiX]) reqAB (by decide)

/-! ## Path normalization -/

/-- Reference algorithm, stated from the spec's words (§4.3 / C3): if
the path does not start with `/` (including the empty path) the result
is empty; otherwise strip the single leading `/`, split on `/`, and fold
left where `.` is dropped, `..` pops the last pushed segment if any, and
any other segment is pushed verbatim. -/
def normalizeRef (path : List Char) : List String :=
  if path.head? = some '/' then
    ((splitSlash path.tail).map (fun cs => String.mk cs)).foldl normStep []
  else []

/-- The source normalization agrees with the spec's reference algorithm
on every path. -/
theorem collect_path_segs_eq_ref (path : List Char) :
    collect_path_segs path = normalizeRef path := by
  unfold collect_path_segs normalizeRef
  cases path with
  | nil => simp
  | cons c rest =>
    by_cases hc : c = '/'
    · subst hc
      simp [List.drop]
    · simp [hc]

/-- C3: the normalization run by `set_uri` is total (it is a Lean `def`),
agrees with the spec's reference algorithm on every raw path, and gives
the specified answers on `"/a/../b"`, `"/a/./b"`, `"/../a"`, `""` and
`"a/b"`. -/
theorem set_uri_normalization :
    (∀ (req : Request) (uri : Uri),
        (req.set_uri uri).path_segs = collect_path_segs uri.path) ∧
    (∀ path : List Char, collect_path_segs path = normalizeRef path) ∧
    collect_path_segs "/a/../b".toList = ["b"] ∧
    collect_path_segs "/a/./b".toList = ["a", "b"] ∧
    collect_path_segs "/../a".toList = ["a"] ∧
    collect_path_segs "".toList = [] ∧
    collect_path_segs "a/b".toList = [] :=
  ⟨fun _ _ => rfl, collect_path_segs_eq_ref,
    by decide, by decide, by decide, by decide, by decide⟩

/-! ## Error taxonomy -/

/-- C7: `method_not_allowed()` builds a 404-class ("not found") error,
not a 405-class one, with the fixed description "Method is not
allowed.". -/
theorem method_not_allowed_is_not_found_class :
    Error.method_not_allowed.status = StatusCode.NotFound ∧
    Error.method_not_allowed.status ≠ StatusCode.MethodNotAllowed ∧
    Error.method_not_allowed.description = "Method is not allowed." :=
  ⟨rfl, by decide, rfl⟩

/-! ## Header-map lemmas -/

/-- After `set`, looking the name up yields the new value. -/
theorem hdrGet_hdrSet_self (hs : Headers) (n v : String) :
    hdrGet (hdrSet hs n v) n = some v := by
  unfold hdrGet hdrSet
  have hnone : (hs.filter fun p => p.fst != n).find? (fun p => p.fst == n) = none := by
    rw [List.find?_eq_none]
    intro x hx
    have := List.of_mem_filter hx
    simpa using this
  rw [List.find?_append, hnone]
  simp

/-- `set` does not disturb the lookup of any other header name. -/
theorem hdrGet_hdrSet_ne (hs : Headers) (n v m : String) (hm : m ≠ n) :
    hdrGet (hdrSet hs n v) m = hdrGet hs m := by
  unfold hdrGet hdrSet
  induction hs with
  | nil =>
    have h0 : (n == m) = false := by simp [Ne.symm hm]
    simp [List.find?_cons, h0]
  | cons p ps ih =>
    by_cases hp : p.fst = n
    · have h1 : (p.fst != n) = false := by simp [hp]
      have h2 : (p.fst == m) = false := by simp [hp, Ne.symm hm]
      simp only [List.filter_cons, h1, Bool.false_eq_true, if_false, List.find?_cons, h2]
      exact ih
    · have h1 : (p.fst != n) = true := by simp [hp]
      by_cases hpm : p.fst = m
      · have h2 : (p.fst == m) = true := by simp [hpm]
        simp only [List.filter_cons, h1, if_true, List.cons_append, List.find?_cons, h2]
      · have h2 : (p.fst == m) = false := by simp [hpm]
        simp only [List.filter_cons, h1, if_true, List.cons_append, List.find?_cons, h2]
        exact ih

/-- C6: converting an `Error` into a transport response keeps the status,
renders the body as exactly the JSON object with the description as
`msg`, forces `Content-Type` to `application/json; charset=UTF-8` and
`Content-Length` to the body's byte length, preserves every other
caller-set header, and in particular `not_found("missing")` converts to
a 404 status with body exactly the `missing` message object. -/
theorem error_into_response (e : Error) (n : String)
    (hn1 : n ≠ "Content-Type") (hn2 : n ≠ "Content-Length") :
    e.intoHyperResponse.status = e.status ∧
    e.intoHyperResponse.body = "\x7b\"msg\":\"" ++ e.description ++ "\"\x7d" ∧
    hdrGet e.intoHyperResponse.headers "Content-Type" =
      some "application/json; charset=UTF-8" ∧
    hdrGet e.intoHyperResponse.headers "Content-Length" =
      some (toString e.intoHyperResponse.body.utf8ByteSize) ∧
    hdrGet e.intoHyperResponse.headers n = hdrGet e.headers n ∧
    (Error.not_found "missing").intoHyperResponse.status = StatusCode.NotFound ∧
    (Error.not_found "missing").intoHyperResponse.body = "\x7b\"msg\":\"missing\"\x7d" := by
  refine ⟨rfl, rfl, ?_, ?_, ?_, rfl, by decide⟩
  · show hdrGet (hdrSet (hdrSet e.headers "Content-Type" _) "Content-Length" _)
      "Content-Type" = _
    rw [hdrGet_hdrSet_ne _ _ _ _ (by decide), hdrGet_hdrSet_self]
  · exact hdrGet_hdrSet_self _ _ _
  · show hdrGet (hdrSet (hdrSet e.headers "Content-Type" _) "Content-Length" _) n = _
    rw [hdrGet_hdrSet_ne _ _ _ _ hn2, hdrGet_hdrSet_ne _ _ _ _ hn1]

/-- Fixture: a "not found" error carrying one caller-set header. -/
def errC : Error := (Error.not_found "missing").with_header "X-Test" "1"

/-- Witness for C6 at the concrete error `not_found("missing")` with a
caller-set `X-Test` header. -/
theorem error_into_response_witness :
    errC.intoHyperResponse.status = errC.status ∧
    errC.intoHyperResponse.body = "\x7b\"msg\":\"" ++ errC.description ++ "\"\x7d" ∧
    hdrGet errC.intoHyperResponse.headers "Content-Type" =
      some "application/json; charset=UTF-8" ∧
    hdrGet errC.intoHyperResponse.headers "Content-Length" =
      some (toString errC.intoHyperResponse.body.utf8ByteSize) ∧
    hdrGet errC.intoHyperResponse.headers "X-Test" = hdrGet errC.headers "X-Test" ∧
    (Error.not_found "missing").intoHyperResponse.status = StatusCode.NotFound ∧
    (Error.not_found "missing").intoHyperResponse.body = "\x7b\"msg\":\"missing\"\x7d" :=
  error_into_response errC "X-Test" (by decide) (by decide)

/-! ## JSON wiring -/

/-- Fixture: a concrete codec standing in for `serde_json` on `Nat`,
which round-trips the value `1` as the body `"1"`. -/
def codecN : Codec Nat :=
  { ser := fun k => Except.ok (toString k),
    de := fun s => if s = "1" then Except.ok 1 else Except.error "expected 1" }

/-- Fixture: a response carrying a non-JSON `Content-Type`. -/
def resBad : Response :=
  { Response.new with headers := [("Content-Type", "text/plain")] }

/-- C8: if the external codec round-trips `v` (serialize then deserialize
gives `v` back), then `set_json v` followed by `to_json` yields `v` — the
setter's forced `Content-Type` passes the accessor's check; and `to_json`
on a response whose `Content-Type` header is present but not of type
`application/json` yields the bad-request error. -/
theorem response_json_roundtrip {α : Type} (c : Codec α) (v : α) (r : Response)
    (s ty : String) :
    (c.ser v = Except.ok s → c.de s = Except.ok v →
      (Response.set_json c v r).bind (fun r2 => Response.to_json c r2) = Except.ok v) ∧
    (hdrGet r.headers "Content-Type" = some ty →
      (mimeType ty != "application" || mimeSubtype ty != "json") = true →
      Response.to_json c r =
        Except.error (Error.bad_request "Content should be of type `application/json`.")) := by
  constructor
  · intro h1 h2
    have hset : Response.set_json c v r = Except.ok { r with body := s, headers := hdrSet r.headers "Content-Type" "application/json; charset=UTF-8" } := by
      simp only [Response.set_json, h1]
    rw [hset]
    show Response.to_json c _ = Except.ok v
    simp only [Response.to_json, hdrGet_hdrSet_self]
    have hmime : (mimeType "application/json; charset=UTF-8" != "application" ||
        mimeSubtype "application/json; charset=UTF-8" != "json") = false := by decide
    simp only [hmime, Bool.false_eq_true, if_false]
    simp only [decodeJsonBody, h2]
  · intro hct hmime
    simp only [Response.to_json, hct, hmime, if_true]

/-- Witness for C8: the codec fixture round-trips `1` through a response
that even starts out with a wrong `Content-Type`, and `to_json` on the
wrong-typed response is the bad-request error. -/
theorem response_json_roundtrip_witness :
    (Response.set_json codecN 1 resBad).bind (fun r2 => Response.to_json codecN r2) =
      Except.ok 1 ∧
    Response.to_json codecN resBad =
      Except.error (Error.bad_request "Content should be of type `application/json`.") :=
  ⟨(response_json_roundtrip codecN 1 resBad "1" "text/plain").1 (by rfl) (by rfl),
   (response_json_roundtrip codecN 1 resBad "1" "text/plain").2 (by rfl) (by decide)⟩

/-- Fixture: a request with no `Content-Type` header and a body the codec
fixture rejects. -/
def reqNoCT : Request := { Request.new Method.Get with body := "x" }

/-- Fixture: a request with a matching JSON `Content-Type`. -/
def reqJsonCT : Request :=
  { Request.new Method.Post with
    headers := [("Content-Type", "application/json; charset=UTF-8")], body := "1" }

/-- C10: with no `Content-Type` header, `to_json` and `to_form` skip the
content-type check and go straight to decoding the body; the bad-request
path needs a present, mismatched header (a matching one also goes
straight to decoding); and a decode failure without the header yields the
internal-class (500) error, not a bad-request one. -/
theorem content_type_check_only_when_present {α : Type} (c : Codec α)
    (req req2 : Request) (res : Response) (e ty : String) :
    (hdrGet req.headers "Content-Type" = none →
       Request.to_json c req = decodeJsonBody c req.body ∧
       Request.to_form c req = decodeFormBody c req.body) ∧
    (hdrGet res.headers "Content-Type" = none →
       Response.to_json c res = decodeJsonBody c res.body) ∧
    (hdrGet req2.headers "Content-Type" = some ty →
       (mimeType ty != "application" || mimeSubtype ty != "json") = false →
       Request.to_json c req2 = decodeJsonBody c req2.body) ∧
    (hdrGet req.headers "Content-Type" = none → c.de req.body = Except.error e →
       Request.to_json c req =
         Except.error ((Error.internal "Unable to deserialize body as JSON.").with_cause e) ∧
       ((Error.internal "Unable to deserialize body as JSON.").with_cause e).status =
         StatusCode.InternalServerError) := by
  refine ⟨?_, ?_, ?_, ?_⟩
  · intro h
    exact ⟨by simp only [Request.to_json, h], by simp only [Request.to_form, h]⟩
  · intro h
    simp only [Response.to_json, h]
  · intro h hmime
    simp only [Request.to_json, h, hmime, Bool.false_eq_true, if_false]
  · intro h hde
    refine ⟨?_, rfl⟩
    simp only [Request.to_json, h, decodeJsonBody, hde]

/-- Witness for C10: a header-less request decodes (and fails with the
internal-class error on a bad body), and a request with a matching JSON
content type goes straight to decoding. -/
theorem content_type_check_only_when_present_witness :
    (Request.to_json codecN reqNoCT = decodeJsonBody codecN reqNoCT.body ∧
     Request.to_form codecN reqNoCT = decodeFormBody codecN reqNoCT.body) ∧
    Response.to_json codecN Response.new = decodeJsonBody codecN Response.new.body ∧
    Request.to_json codecN reqJsonCT = decodeJsonBody codecN reqJsonCT.body ∧
    (Request.to_json codecN reqNoCT =
       Except.error
         ((Error.internal "Unable to deserialize body as JSON.").with_cause "expected 1") ∧
     ((Error.internal "Unable to deserialize body as JSON.").with_cause "expected 1").status =
       StatusCode.InternalServerError) :=
  ⟨(content_type_check_only_when_present codecN reqNoCT reqJsonCT Response.new
      "expected 1" "application/json; charset=UTF-8").1 (by rfl),
   (content_type_check_only_when_present codecN reqNoCT reqJsonCT Response.new
      "expected 1" "application/json; charset=UTF-8").2.1 (by rfl),
   (content_type_check_only_when_present codecN reqNoCT reqJsonCT Response.new
      "expected 1" "application/json; charset=UTF-8").2.2.1 (by decide) (by decide),
   (content_type_check_only_when_present codecN reqNoCT reqJsonCT Response.new
      "expected 1" "application/json; charset=UTF-8").2.2.2 (by rfl) (by rfl)⟩

end Writium
